import Mathlib

/-!
Shallow embedding of the health-tracker pipeline in src/tracker.py.

The pipeline ingests a table of daily smartwatch metrics, filters the rows
violating fixed thresholds, maps the violated thresholds to fixed advisory
sentences, renders a four-panel chart, and assembles a paginated report.
Numeric columns are modelled as exact rationals (steps as integers, the
other numeric fields as rationals); dates as strings.  The plotting and
document-layout backends are generic external libraries; they enter the
model only as parameters (an encoder from the figure description to bytes,
a builder from the element list to bytes).
-/

namespace HealthTracker

/-- One row of the uploaded table: the five required columns of tracker.py.
Fields as read by the pipeline: Date, Steps, Heart Rate (bpm),
Calories Burned, Sleep Duration (hours). -/
structure Record where
  date : String
  steps : Int
  heart_rate : ℚ
  calories : ℚ
  sleep_hours : ℚ
deriving DecidableEq

/-- detect_anomalies, tracker.py lines 11-18: boolean-mask selection of the
rows with Heart Rate (bpm) > 100, or Steps < 1000, or
Sleep Duration (hours) < 5.  Pandas boolean-mask selection returns a new
frame holding the matching rows in original order, so this is List.filter. -/
def detect_anomalies (data : List Record) : List Record :=
  data.filter (fun r =>
    decide (r.heart_rate > 100) || decide (r.steps < 1000) || decide (r.sleep_hours < 5))

/-- Advisory sentence for high heart rate, tracker.py line 25. -/
def hrMsg : String := "Consider consulting a doctor about high heart rate readings."

/-- Advisory sentence for low steps, tracker.py line 27. -/
def stepsMsg : String := "Increase daily steps to at least 1000 for better health."

/-- Advisory sentence for short sleep, tracker.py line 29. -/
def sleepMsg : String := "Ensure to get at least 5-7 hours of sleep daily."

/-- Fallback sentence for an empty anomaly subset, tracker.py line 31. -/
def noAnomMsg : String := "No anomalies detected. Keep up the good work!"

/-- provide_recommendations, tracker.py lines 20-32: if the subset is
non-empty, test each of the three predicates with a subset-wide any() and
append the fixed sentence for each predicate that holds somewhere, in the
order heart rate, steps, sleep; if the subset is empty, append only the
fallback sentence. -/
def provide_recommendations (anomalies : List Record) : List String :=
  if anomalies.isEmpty = false then
    (if anomalies.any (fun r => decide (r.heart_rate > 100)) = true then [hrMsg] else []) ++
    (if anomalies.any (fun r => decide (r.steps < 1000)) = true then [stepsMsg] else []) ++
    (if anomalies.any (fun r => decide (r.sleep_hours < 5)) = true then [sleepMsg] else [])
  else
    [noAnomMsg]

/-- The scenario row of spec section 8: Date 2024-01-01, Steps 500,
Heart Rate 72, Calories 1800, Sleep 7. -/
def row20240101 : Record :=
  { date := "2024-01-01", steps := 500, heart_rate := 72, calories := 1800, sleep_hours := 7 }

/-- The scenario row of spec section 8: Date 2024-01-02, Steps 8000,
Heart Rate 65, Calories 2200, Sleep 7.5 (the exact rational 15/2). -/
def row20240102 : Record :=
  { date := "2024-01-02", steps := 8000, heart_rate := 65, calories := 2200,
    sleep_hours := mkRat 15 2 }

/-- The sleep value of the second scenario row is the decimal 7.5. -/
lemma row20240102_sleep : row20240102.sleep_hours = 7.5 := by
  norm_num [row20240102]

/-- A row violating only the heart-rate threshold. -/
def rowHighHr : Record :=
  { date := "2024-01-03", steps := 5000, heart_rate := 120, calories := 2000, sleep_hours := 8 }

/-- A row violating only the sleep threshold. -/
def rowShortSleep : Record :=
  { date := "2024-01-04", steps := 4000, heart_rate := 70, calories := 1900, sleep_hours := 4 }

/-- The membership characterisation of the detector output. -/
lemma mem_detect_anomalies {d : List Record} {r : Record} :
    r ∈ detect_anomalies d ↔
      r ∈ d ∧ (r.heart_rate > 100 ∨ r.steps < 1000 ∨ r.sleep_hours < 5) := by
  simp [detect_anomalies, List.mem_filter, or_assoc]

/-- The any-over-the-subset test agrees with existence over the subset. -/
lemma any_eq_exists (s : List Record) (p : Record → Prop) [DecidablePred p] :
    (s.any (fun r => decide (p r)) = true) ↔ ∃ r ∈ s, p r := by
  simp [List.any_eq_true]

/-- The shape of provide_recommendations on a non-empty subset, with the
three any() tests written as existence statements. -/
lemma provide_recommendations_eq_of_ne_nil {s : List Record} (h : s ≠ []) :
    provide_recommendations s =
      (if ∃ r ∈ s, r.heart_rate > 100 then [hrMsg] else []) ++
      (if ∃ r ∈ s, r.steps < 1000 then [stepsMsg] else []) ++
      (if ∃ r ∈ s, r.sleep_hours < 5 then [sleepMsg] else []) := by
  have hne : s.isEmpty = false := by
    cases s with
    | nil => exact absurd rfl h
    | cons a t => rfl
  rw [provide_recommendations, if_pos hne]
  rw [if_congr (any_eq_exists s (fun r => r.heart_rate > 100)) rfl rfl]
  rw [if_congr (any_eq_exists s (fun r => r.steps < 1000)) rfl rfl]
  rw [if_congr (any_eq_exists s (fun r => r.sleep_hours < 5)) rfl rfl]

lemma hr_ne_steps : hrMsg ≠ stepsMsg := by decide

lemma hr_ne_sleep : hrMsg ≠ sleepMsg := by decide

lemma steps_ne_sleep : stepsMsg ≠ sleepMsg := by decide

lemma hr_ne_noAnom : hrMsg ≠ noAnomMsg := by decide

lemma steps_ne_noAnom : stepsMsg ≠ noAnomMsg := by decide

lemma sleep_ne_noAnom : sleepMsg ≠ noAnomMsg := by decide

/-- C1: detect_anomalies returns exactly the records satisfying
heart_rate > 100 or steps < 1000 or sleep_hours < 5: it is a sublist of
the input (original order preserved), every returned row satisfies one
predicate, every row satisfying a predicate is returned, and the empty
dataset gives the empty subset. -/
theorem detect_anomalies_spec (d : List Record) :
    (detect_anomalies d).Sublist d ∧
    (∀ r ∈ detect_anomalies d,
      r.heart_rate > 100 ∨ r.steps < 1000 ∨ r.sleep_hours < 5) ∧
    (∀ r ∈ d, (r.heart_rate > 100 ∨ r.steps < 1000 ∨ r.sleep_hours < 5) →
      r ∈ detect_anomalies d) ∧
    detect_anomalies ([] : List Record) = [] := by
  refine ⟨List.filter_sublist d, ?_, ?_, rfl⟩
  · intro r hr
    exact (mem_detect_anomalies.mp hr).2
  · intro r hrd hp
    exact mem_detect_anomalies.mpr ⟨hrd, hp⟩

/-- Witness for C1 at a concrete input: the low-steps scenario row is
returned by the detector from the singleton dataset containing it. -/
theorem detect_anomalies_spec_witness :
    row20240101 ∈ detect_anomalies [row20240101] :=
  (detect_anomalies_spec [row20240101]).2.2.1 row20240101 (by simp)
    (Or.inr (Or.inl (by decide)))

/-- C2: on a non-empty subset, provide_recommendations performs three
independent subset-wide existence checks and returns exactly one fixed
sentence per predicate holding somewhere, in the order heart rate, steps,
sleep; hence at most three entries with no sentence repeated. -/
theorem provide_recommendations_nonempty (s : List Record) (h : s ≠ []) :
    provide_recommendations s =
      (if ∃ r ∈ s, r.heart_rate > 100 then [hrMsg] else []) ++
      (if ∃ r ∈ s, r.steps < 1000 then [stepsMsg] else []) ++
      (if ∃ r ∈ s, r.sleep_hours < 5 then [sleepMsg] else []) ∧
    (provide_recommendations s).length ≤ 3 ∧
    (provide_recommendations s).Nodup := by
  have key := provide_recommendations_eq_of_ne_nil h
  refine ⟨key, ?_, ?_⟩
  · rw [key]
    by_cases h1 : ∃ r ∈ s, r.heart_rate > 100 <;>
      by_cases h2 : ∃ r ∈ s, r.steps < 1000 <;>
        by_cases h3 : ∃ r ∈ s, r.sleep_hours < 5 <;>
          simp [h1, h2, h3]
  · rw [key]
    by_cases h1 : ∃ r ∈ s, r.heart_rate > 100 <;>
      by_cases h2 : ∃ r ∈ s, r.steps < 1000 <;>
        by_cases h3 : ∃ r ∈ s, r.sleep_hours < 5 <;>
          simp [h1, h2, h3, hr_ne_steps, hr_ne_sleep, steps_ne_sleep]

/-- Witness for C2 at a concrete input: the singleton subset holding the
low-steps scenario row. -/
theorem provide_recommendations_nonempty_witness :
    provide_recommendations [row20240101] =
      (if ∃ r ∈ [row20240101], r.heart_rate > 100 then [hrMsg] else []) ++
      (if ∃ r ∈ [row20240101], r.steps < 1000 then [stepsMsg] else []) ++
      (if ∃ r ∈ [row20240101], r.sleep_hours < 5 then [sleepMsg] else []) ∧
    (provide_recommendations [row20240101]).length ≤ 3 ∧
    (provide_recommendations [row20240101]).Nodup :=
  provide_recommendations_nonempty [row20240101] (by simp)

/-- C3: the empty anomaly subset produces exactly the single fallback
sentence; and the all-healthy scenario row (Steps 8000, Heart Rate 65,
Calories 2200, Sleep 7.5) is excluded from the subset, so the pipeline on
that single row yields exactly the fallback list. -/
theorem provide_recommendations_empty_fallback :
    provide_recommendations [] = [noAnomMsg] ∧
    detect_anomalies [row20240102] = [] ∧
    provide_recommendations (detect_anomalies [row20240102]) = [noAnomMsg] := by
  refine ⟨rfl, ?_, ?_⟩ <;> decide

/-- C4: for the single low-steps scenario row (Steps 500, Heart Rate 72,
Calories 1800, Sleep 7), the detector includes the row and the recommender
returns exactly the one-element list with the steps advisory. -/
theorem scenario_low_steps :
    detect_anomalies [row20240101] = [row20240101] ∧
    provide_recommendations (detect_anomalies [row20240101]) = [stepsMsg] := by
  refine ⟨?_, ?_⟩ <;> decide

/-- C9: a non-empty subset in which no record violates any predicate
produces the empty recommendation list: the fallback sentence is tied to
emptiness of the subset, not to absence of violations. -/
theorem provide_recommendations_no_violation (s : List Record) (hne : s ≠ [])
    (h : ∀ r ∈ s, ¬ r.heart_rate > 100 ∧ ¬ r.steps < 1000 ∧ ¬ r.sleep_hours < 5) :
    provide_recommendations s = [] := by
  have h1 : ¬ ∃ r ∈ s, r.heart_rate > 100 := by
    rintro ⟨r, hrs, hp⟩
    exact (h r hrs).1 hp
  have h2 : ¬ ∃ r ∈ s, r.steps < 1000 := by
    rintro ⟨r, hrs, hp⟩
    exact (h r hrs).2.1 hp
  have h3 : ¬ ∃ r ∈ s, r.sleep_hours < 5 := by
    rintro ⟨r, hrs, hp⟩
    exact (h r hrs).2.2 hp
  rw [provide_recommendations_eq_of_ne_nil hne, if_neg h1, if_neg h2, if_neg h3]
  rfl

/-- Witness for C9: the healthy scenario row alone forms a non-empty,
violation-free subset and gets no recommendation at all. -/
theorem provide_recommendations_no_violation_witness :
    provide_recommendations [row20240102] = [] :=
  provide_recommendations_no_violation [row20240102] (by simp)
    (by intro r hr; simp at hr; subst hr; refine ⟨by decide, by decide, by decide⟩)

/-- C10: composing detector and recommender loses nothing: an advisory
appears in provide_recommendations (detect_anomalies d) exactly when some
row of the full dataset d satisfies the corresponding predicate. -/
theorem compose_detect_recommend (d : List Record) :
    (hrMsg ∈ provide_recommendations (detect_anomalies d) ↔
      ∃ r ∈ d, r.heart_rate > 100) ∧
    (stepsMsg ∈ provide_recommendations (detect_anomalies d) ↔
      ∃ r ∈ d, r.steps < 1000) ∧
    (sleepMsg ∈ provide_recommendations (detect_anomalies d) ↔
      ∃ r ∈ d, r.sleep_hours < 5) := by
  have hhr : (∃ r ∈ detect_anomalies d, r.heart_rate > 100) ↔ ∃ r ∈ d, r.heart_rate > 100 := by
    constructor
    · rintro ⟨r, hrs, hp⟩
      exact ⟨r, (mem_detect_anomalies.mp hrs).1, hp⟩
    · rintro ⟨r, hrd, hp⟩
      exact ⟨r, mem_detect_anomalies.mpr ⟨hrd, Or.inl hp⟩, hp⟩
  have hst : (∃ r ∈ detect_anomalies d, r.steps < 1000) ↔ ∃ r ∈ d, r.steps < 1000 := by
    constructor
    · rintro ⟨r, hrs, hp⟩
      exact ⟨r, (mem_detect_anomalies.mp hrs).1, hp⟩
    · rintro ⟨r, hrd, hp⟩
      exact ⟨r, mem_detect_anomalies.mpr ⟨hrd, Or.inr (Or.inl hp)⟩, hp⟩
  have hsl : (∃ r ∈ detect_anomalies d, r.sleep_hours < 5) ↔ ∃ r ∈ d, r.sleep_hours < 5 := by
    constructor
    · rintro ⟨r, hrs, hp⟩
      exact ⟨r, (mem_detect_anomalies.mp hrs).1, hp⟩
    · rintro ⟨r, hrd, hp⟩
      exact ⟨r, mem_detect_anomalies.mpr ⟨hrd, Or.inr (Or.inr hp)⟩, hp⟩
  by_cases hnil : detect_anomalies d = []
  · have hnone : ∀ r ∈ d,
        ¬ (r.heart_rate > 100 ∨ r.steps < 1000 ∨ r.sleep_hours < 5) := by
      intro r hrd hp
      have : r ∈ detect_anomalies d := mem_detect_anomalies.mpr ⟨hrd, hp⟩
      rw [hnil] at this
      exact absurd this (List.not_mem_nil r)
    rw [hnil]
    have hfall : provide_recommendations [] = [noAnomMsg] := rfl
    rw [hfall]
    refine ⟨?_, ?_, ?_⟩ <;>
      simp only [List.mem_singleton] <;>
      constructor
    · intro h
      exact absurd h hr_ne_noAnom
    · rintro ⟨r, hrd, hp⟩
      exact absurd (Or.inl hp) (hnone r hrd)
    · intro h
      exact absurd h steps_ne_noAnom
    · rintro ⟨r, hrd, hp⟩
      exact absurd (Or.inr (Or.inl hp)) (hnone r hrd)
    · intro h
      exact absurd h sleep_ne_noAnom
    · rintro ⟨r, hrd, hp⟩
      exact absurd (Or.inr (Or.inr hp)) (hnone r hrd)
  · rw [provide_recommendations_eq_of_ne_nil hnil]
    rw [← hhr, ← hst, ← hsl]
    by_cases h1 : ∃ r ∈ detect_anomalies d, r.heart_rate > 100 <;>
      by_cases h2 : ∃ r ∈ detect_anomalies d, r.steps < 1000 <;>
        by_cases h3 : ∃ r ∈ detect_anomalies d, r.sleep_hours < 5 <;>
          simp [h1, h2, h3, hr_ne_steps, hr_ne_sleep, steps_ne_sleep,
            hr_ne_steps.symm, hr_ne_sleep.symm, steps_ne_sleep.symm]

/-- A table cell as placed into the report table: the source puts the raw
column values into the rows (a date string, an integer step count, and
rational readings). -/
inductive Cell where
  | str (s : String)
  | int (n : Int)
  | num (q : ℚ)
deriving DecidableEq

/-- One TableStyle command of tracker.py lines 85-91, with cell ranges as
coordinate pairs and colors by name. -/
inductive StyleCmd where
  | background (a b : Int × Int) (color : String)
  | textColor (a b : Int × Int) (color : String)
  | align (a b : Int × Int) (mode : String)
  | grid (a b : Int × Int) (width : ℚ) (color : String)
deriving DecidableEq

/-- One flowable element handed to the document-layout engine: a styled
paragraph, a styled table, or an image. -/
inductive Element where
  | paragraph (text : String) (style : String)
  | table (rows : List (List Cell)) (style : List StyleCmd)
  | image (buf : List Nat)
deriving DecidableEq

/-- An in-memory byte buffer with a read position, modelling the byte
streams the source allocates for the image and the document. -/
structure ByteBuf where
  contents : List Nat
  pos : Nat

/-- Move the read position (buffer.seek in the source). -/
def ByteBuf.seek (b : ByteBuf) (p : Nat) : ByteBuf :=
  { contents := b.contents, pos := p }

/-- Read everything from the current position (buffer.read in the source). -/
def ByteBuf.read (b : ByteBuf) : List Nat :=
  b.contents.drop b.pos

/-- The header row of the anomaly table, tracker.py line 80. -/
def headerRow : List Cell :=
  [Cell.str "Date", Cell.str "Steps", Cell.str "Heart Rate (bpm)",
   Cell.str "Calories Burned", Cell.str "Sleep Duration (hours)"]

/-- One body row of the anomaly table, tracker.py line 82: the five raw
column values of one record. -/
def recordCells (r : Record) : List Cell :=
  [Cell.str r.date, Cell.int r.steps, Cell.num r.heart_rate,
   Cell.num r.calories, Cell.num r.sleep_hours]

/-- The table style of tracker.py lines 85-91: grey header background,
whitesmoke header text, centered alignment, beige body background, and a
1-point black grid over the whole table. -/
def tableStyle : List StyleCmd :=
  [StyleCmd.background (0, 0) (-1, 0) "grey",
   StyleCmd.textColor (0, 0) (-1, 0) "whitesmoke",
   StyleCmd.align (0, 0) (-1, -1) "CENTER",
   StyleCmd.background (0, 1) (-1, -1) "beige",
   StyleCmd.grid (0, 0) (-1, -1) 1 "black"]

/-- The element list assembled by create_pdf_report, tracker.py lines
68-100, in source order: title paragraph, Data Summary heading, Anomalies
Detected heading, the anomaly table, the Recommendations heading, one
bulleted paragraph per recommendation, and the chart image. -/
def pdfElements (name : String) (age : Int) (anomalies : List Record)
    (recommendations : List String) (plot_image_buf : List Nat) : List Element :=
  [Element.paragraph ("Health Report for " ++ name ++ ", Age: " ++ toString age) "Title",
   Element.paragraph "Data Summary:" "Heading2",
   Element.paragraph "Anomalies Detected:" "Heading3",
   Element.table (headerRow :: anomalies.map recordCells) tableStyle,
   Element.paragraph "Recommendations:" "Heading2"] ++
  recommendations.map (fun m => Element.paragraph ("- " ++ m) "Normal") ++
  [Element.image plot_image_buf]

/-- create_pdf_report, tracker.py lines 65-105: assemble the element list,
let the layout engine (the build parameter, SimpleDocTemplate.build in the
source) write the paginated document into a fresh byte buffer, rewind the
buffer to the start and read all of it.  The data argument is accepted but
unused, as in the source. -/
def create_pdf_report (build : List Element → List Nat) (name : String) (age : Int)
    (data anomalies : List Record) (recommendations : List String)
    (plot_image_buf : List Nat) : List Nat :=
  let elements := pdfElements name age anomalies recommendations plot_image_buf
  let buffer : ByteBuf := { contents := build elements, pos := (build elements).length }
  (buffer.seek 0).read

/-- One subplot drawn by plot_data: its slot in the 2x2 grid, its x data
(the Date column), its y data, marker, optional color, title, and the
45-degree x-tick label turn. -/
structure Subplot where
  grid_pos : Nat × Nat × Nat
  xs : List String
  ys : List ℚ
  marker : String
  color : Option String
  title : String
  xtickTurn : ℚ
deriving DecidableEq

/-- The figure built by plot_data: 10x6 size, four subplots, automatic
spacing (tight_layout). -/
structure Figure where
  figsize : ℚ × ℚ
  subplots : List Subplot
  tight_layout : Bool
deriving DecidableEq

/-- The chart content drawn by plot_data, tracker.py lines 36-57: four 2x2
subplots of date against steps, heart rate, calories and sleep, with fixed
markers, colors and titles — no input-independent styling choice is free. -/
def plot_data_fig (data : List Record) : Figure :=
  { figsize := (10, 6),
    subplots :=
      [{ grid_pos := (2, 2, 1), xs := data.map (fun r => r.date),
         ys := data.map (fun r => (r.steps : ℚ)), marker := "o", color := none,
         title := "Steps Over Time", xtickTurn := 45 },
       { grid_pos := (2, 2, 2), xs := data.map (fun r => r.date),
         ys := data.map (fun r => r.heart_rate), marker := "o", color := some "red",
         title := "Heart Rate Over Time", xtickTurn := 45 },
       { grid_pos := (2, 2, 3), xs := data.map (fun r => r.date),
         ys := data.map (fun r => r.calories), marker := "o", color := some "green",
         title := "Calories Burned Over Time", xtickTurn := 45 },
       { grid_pos := (2, 2, 4), xs := data.map (fun r => r.date),
         ys := data.map (fun r => r.sleep_hours), marker := "o", color := some "purple",
         title := "Sleep Duration Over Time", xtickTurn := 45 }],
    tight_layout := true }

/-- plot_data, tracker.py lines 34-63: draw the figure, let the plotting
backend (the encodePng parameter, plt.savefig in the source) encode it as
PNG bytes into a fresh buffer, rewind the buffer to the start and return
it. -/
def plot_data (encodePng : Figure → List Nat) (data : List Record) : List Nat :=
  let fig := plot_data_fig data
  let buf : ByteBuf := { contents := encodePng fig, pos := (encodePng fig).length }
  (buf.seek 0).read

/-- The required column names checked by the app shell, tracker.py line 130. -/
def required_columns : List String :=
  ["Date", "Steps", "Heart Rate (bpm)", "Calories Burned", "Sleep Duration (hours)"]

/-- The schema error message shown when a required column is missing,
tracker.py line 132. -/
def schemaErrorMsg : String :=
  "CSV file must contain the following columns: \x27Date\x27, \x27Steps\x27, \x27Heart Rate (bpm)\x27, \x27Calories Burned\x27, \x27Sleep Duration (hours)\x27."

/-- The uploaded table as parsed by the data-frame library: its column
names and its rows.  When the five required columns are present, the rows
are read as metric records. -/
structure RawTable where
  columns : List String
  rows : List Record

/-- What one pipeline run of the app shell produces: either the schema
error message with no stage invoked, or the outputs of the four stages
together with the dataset the run ends with. -/
inductive PipelineResult where
  | schemaError (msg : String)
  | report (data : List Record) (anomalies : List Record)
      (recommendations : List String) (pdf : List Nat)
deriving DecidableEq

/-- The pipeline run of the app shell, tracker.py lines 121-150: check the
required columns; on failure report the schema error and run nothing; on
success run detection, recommendation, plotting and report assembly in
order on the loaded dataset. -/
def run_pipeline (build : List Element → List Nat) (encodePng : Figure → List Nat)
    (name : String) (age : Int) (t : RawTable) : PipelineResult :=
  if !(required_columns.all (fun c => t.columns.contains c)) then
    PipelineResult.schemaError schemaErrorMsg
  else
    let data := t.rows
    let anomalies := detect_anomalies data
    let recommendations := provide_recommendations anomalies
    let plot_image_buf := plot_data encodePng data
    let pdf := create_pdf_report build name age data anomalies recommendations plot_image_buf
    PipelineResult.report data anomalies recommendations pdf

/-- A concrete table missing the Sleep Duration (hours) column. -/
def tableMissingSleep : RawTable :=
  { columns := ["Date", "Steps", "Heart Rate (bpm)", "Calories Burned"], rows := [] }

/-- A concrete table with all five required columns and two rows. -/
def tableAllCols : RawTable :=
  { columns := required_columns, rows := [row20240101, row20240102] }

/-- C5: create_pdf_report emits its elements in the fixed order title,
Data Summary heading, Anomalies Detected heading, anomaly table (header
row of the five field names, one body row per subset record in order,
distinct header background and text color, a visible grid), the
Recommendations heading, one bulleted paragraph per advisory in order, and
the chart image; and it returns the whole document read from the buffer
rewound to the start. -/
theorem create_pdf_report_spec (build : List Element → List Nat) (name : String)
    (age : Int) (data anomalies : List Record) (recommendations : List String)
    (img : List Nat) :
    (pdfElements name age anomalies recommendations img).take 5 =
      [Element.paragraph ("Health Report for " ++ name ++ ", Age: " ++ toString age) "Title",
       Element.paragraph "Data Summary:" "Heading2",
       Element.paragraph "Anomalies Detected:" "Heading3",
       Element.table (headerRow :: anomalies.map recordCells) tableStyle,
       Element.paragraph "Recommendations:" "Heading2"] ∧
    (pdfElements name age anomalies recommendations img).drop 5 =
      recommendations.map (fun m => Element.paragraph ("- " ++ m) "Normal") ++
        [Element.image img] ∧
    StyleCmd.background (0, 0) (-1, 0) "grey" ∈ tableStyle ∧
    StyleCmd.textColor (0, 0) (-1, 0) "whitesmoke" ∈ tableStyle ∧
    StyleCmd.grid (0, 0) (-1, -1) 1 "black" ∈ tableStyle ∧
    create_pdf_report build name age data anomalies recommendations img =
      build (pdfElements name age anomalies recommendations img) := by
  refine ⟨rfl, rfl, ?_, ?_, ?_, rfl⟩ <;> decide

/-- C6: a missing required column short-circuits the pipeline: the run
yields exactly the user-visible schema error, and none of the four stage
outputs occurs in the result. -/
theorem schema_error_short_circuits (build : List Element → List Nat)
    (encodePng : Figure → List Nat) (name : String) (age : Int) (t : RawTable)
    (h : ∃ c ∈ required_columns, c ∉ t.columns) :
    run_pipeline build encodePng name age t =
      PipelineResult.schemaError schemaErrorMsg := by
  have hb : required_columns.all (fun c => t.columns.contains c) = false := by
    rcases h with ⟨c, hc, hnc⟩
    rw [List.all_eq_false]
    refine ⟨c, hc, ?_⟩
    simpa using hnc
  rw [run_pipeline, hb]
  rfl

/-- Witness for C6: a table without the Sleep Duration (hours) column is
rejected with the schema error. -/
theorem schema_error_short_circuits_witness :
    run_pipeline (fun _ => []) (fun _ => []) "Alice" 30 tableMissingSleep =
      PipelineResult.schemaError schemaErrorMsg :=
  schema_error_short_circuits (fun _ => []) (fun _ => []) "Alice" 30 tableMissingSleep
    ⟨"Sleep Duration (hours)", by decide, by decide⟩

/-- C7: the chart renderer is deterministic: on identical datasets the
drawn figure is identical, and with the same (deterministic) encoding
backend the produced image bytes are identical — no styling choice in
plot_data depends on anything but the dataset. -/
theorem plot_data_deterministic (encodePng : Figure → List Nat)
    (d1 d2 : List Record) (h : d1 = d2) :
    plot_data_fig d1 = plot_data_fig d2 ∧
    plot_data encodePng d1 = plot_data encodePng d2 := by
  subst h
  exact ⟨rfl, rfl⟩

/-- Witness for C7 at a concrete dataset and encoder. -/
theorem plot_data_deterministic_witness :
    plot_data_fig [row20240101] = plot_data_fig [row20240101] ∧
    plot_data (fun _ => []) [row20240101] = plot_data (fun _ => []) [row20240101] :=
  plot_data_deterministic (fun _ => []) [row20240101] [row20240101] rfl

/-- C8: no stage mutates the dataset.  Every translated operation of the
source reads the frame without writing it (boolean-mask selection builds a
new frame, any(), iterrows() and column reads are reads), so each stage is
a pure function of its inputs; the pipeline run on a well-formed table
ends with the dataset it loaded, and every stage receives exactly that
unchanged dataset. -/
theorem pipeline_no_mutation (build : List Element → List Nat)
    (encodePng : Figure → List Nat) (name : String) (age : Int) (t : RawTable)
    (h : ∀ c ∈ required_columns, c ∈ t.columns) :
    run_pipeline build encodePng name age t =
      PipelineResult.report t.rows (detect_anomalies t.rows)
        (provide_recommendations (detect_anomalies t.rows))
        (create_pdf_report build name age t.rows (detect_anomalies t.rows)
          (provide_recommendations (detect_anomalies t.rows))
          (plot_data encodePng t.rows)) := by
  have hb : required_columns.all (fun c => t.columns.contains c) = true := by
    rw [List.all_eq_true]
    intro c hc
    simpa using h c hc
  rw [run_pipeline, hb]
  rfl

/-- Witness for C8: on a concrete two-row table with all columns the run
reports the unchanged dataset alongside the stage outputs. -/
theorem pipeline_no_mutation_witness :
    run_pipeline (fun _ => []) (fun _ => []) "Alice" 30 tableAllCols =
      PipelineResult.report tableAllCols.rows (detect_anomalies tableAllCols.rows)
        (provide_recommendations (detect_anomalies tableAllCols.rows))
        (create_pdf_report (fun _ => []) "Alice" 30 tableAllCols.rows
          (detect_anomalies tableAllCols.rows)
          (provide_recommendations (detect_anomalies tableAllCols.rows))
          (plot_data (fun _ => []) tableAllCols.rows)) :=
  pipeline_no_mutation (fun _ => []) (fun _ => []) "Alice" 30 tableAllCols (by decide)

end HealthTracker
